import Mathlib

/-!
Verification of the `unit4` embedding-inspector script.

The repository has two variants of the same script (`src/app.js` and
`src/unnamed/part_000`).  Both define the same `cosineSimilarity` function, a
`main` routine that checks for a `GITHUB_TOKEN` credential and drives a
LangChain `MemoryVectorStore`, and (in `app.js`) an interactive `promptUser`
read loop.

Modelling conventions:
* JavaScript numbers are modelled as exact rationals (`ℚ`); the structural
  facts proved here (which branch is taken, NaN production by `0/0`,
  symmetry, boundedness) are insensitive to rounding, and the division
  `dotProduct / (Math.sqrt normA * Math.sqrt normB)` is represented
  symbolically so that the IEEE special values (NaN, ±Infinity) are explicit
  constructors rather than being collapsed by Lean's total division.
* For a non-zero denominator the real value of the result is
  `num / Real.sqrt den2` where `den2 = normA * normB`; this equals
  `num / (Real.sqrt normA * Real.sqrt normB)` because both norms are
  non-negative (`Real.sqrt_mul`).
* The asynchronous `main` routines are modelled as traces of the externally
  visible operations, in the textual order the statements execute.
-/

namespace Unit4

/-- Error raised by `cosineSimilarity` when the two vectors have different
lengths (`throw new Error("Vectors must have the same dimensions")`). -/
inductive SimError where
  | dimensionMismatch
deriving DecidableEq, Repr

/-- Result of the floating-point expression
`dotProduct / (Math.sqrt(normA) * Math.sqrt(normB))` in `cosineSimilarity`.
In IEEE arithmetic the denominator is `0` exactly when `normA * normB = 0`;
then `0 / 0` is NaN and `x / 0` for `x ≠ 0` is a signed infinity.  Otherwise
the result is the real number `num / Real.sqrt den2`, stored symbolically as
the pair `(num, den2)` of rationals. -/
inductive CosResult where
  | nan
  | posInf
  | negInf
  | val (num den2 : ℚ)
deriving DecidableEq, Repr

/-- Real value denoted by a finite `CosResult`; NaN and the infinities denote
no real number. -/
def CosResult.isRealValue : CosResult → ℝ → Prop
  | CosResult.val num den2, x => x = (num : ℝ) / Real.sqrt (den2 : ℝ)
  | _, _ => False

/-- Running sum `dotProduct += vectorA[i] * vectorB[i]` of the loop in
`cosineSimilarity` (src/app.js lines 22-26). -/
def dotProduct : List ℚ → List ℚ → ℚ
  | x :: xs, y :: ys => x * y + dotProduct xs ys
  | _, _ => 0

/-- Running sum `norm += v[i] * v[i]` of the loop in `cosineSimilarity`
(src/app.js lines 22-26), i.e. the squared Euclidean norm. -/
def normSq : List ℚ → ℚ
  | [] => 0
  | x :: xs => x * x + normSq xs

/-- Model of `cosineSimilarity(vectorA, vectorB)` from src/app.js lines 13-29
(identical in src/unnamed/part_000 lines 12-28): throw on a length mismatch,
otherwise return `dotProduct / (Math.sqrt(normA) * Math.sqrt(normB))`.
The code has no guard for a zero denominator: when `normA * normB = 0` the
IEEE division yields NaN (for a `0` numerator) or a signed infinity. -/
def cosineSimilarity (vectorA vectorB : List ℚ) : Except SimError CosResult :=
  if vectorA.length ≠ vectorB.length then
    Except.error SimError.dimensionMismatch
  else
    let dotP := dotProduct vectorA vectorB
    let normA := normSq vectorA
    let normB := normSq vectorB
    if normA * normB = 0 then
      if dotP = 0 then Except.ok CosResult.nan
      else if 0 < dotP then Except.ok CosResult.posInf
      else Except.ok CosResult.negInf
    else
      Except.ok (CosResult.val dotP (normA * normB))

/-- A vector all of whose components are zero: exactly the vectors whose
Euclidean norm is zero. -/
def isZeroVector (v : List ℚ) : Prop :=
  ∀ x ∈ v, x = 0

instance (v : List ℚ) : Decidable (isZeroVector v) :=
  List.decidableBAll _ v

/-- Vector `A = [1, 0, 0]` of the spec's end-to-end scenario. -/
def vecA : List ℚ := [1, 0, 0]

/-- Vector `B = [0.9, 0.1, 0]` of the spec's end-to-end scenario. -/
def vecB : List ℚ := [9/10, 1/10, 0]

/-- Vector `C = [0, 0, 1]` of the spec's end-to-end scenario. -/
def vecC : List ℚ := [0, 0, 1]

/-- The loop of `cosineSimilarity` with the two argument arrays threaded
through every iteration as explicit state, exactly as JavaScript mutation
would have to be: each iteration reads `vectorA[i]` and `vectorB[i]` and
updates only the three scalar accumulators.  `steps` counts the remaining
iterations of `for (let i = 0; i < vectorA.length; i++)`. -/
def simLoopState :
    Nat → Nat → Array ℚ × Array ℚ → ℚ × ℚ × ℚ → (Array ℚ × Array ℚ) × (ℚ × ℚ × ℚ)
  | 0, _, arrays, acc => (arrays, acc)
  | steps + 1, i, (vectorA, vectorB), (dotP, normA, normB) =>
    let x := vectorA.getD i 0
    let y := vectorB.getD i 0
    simLoopState steps (i + 1) (vectorA, vectorB)
      (dotP + x * y, normA + x * x, normB + y * y)

/-- Model of `cosineSimilarity` over arrays, returning alongside the result
the final state of the two argument arrays, so that the absence of mutation
is an explicit theorem rather than a modelling assumption. -/
def cosineSimilarityArr (vectorA vectorB : Array ℚ) :
    Except SimError CosResult × (Array ℚ × Array ℚ) :=
  if vectorA.size ≠ vectorB.size then
    (Except.error SimError.dimensionMismatch, (vectorA, vectorB))
  else
    let result := simLoopState vectorA.size 0 (vectorA, vectorB) (0, 0, 0)
    let dotP := result.2.1
    let normA := result.2.2.1
    let normB := result.2.2.2
    (if normA * normB = 0 then
      if dotP = 0 then Except.ok CosResult.nan
      else if 0 < dotP then Except.ok CosResult.posInf
      else Except.ok CosResult.negInf
    else
      Except.ok (CosResult.val dotP (normA * normB)), result.1)

/-- Externally visible operations performed by the `main` routines, in
program order. -/
inductive MainEvent where
  | embeddingsInit
  | storeConstruct
  | credentialCheck (tokenPresent : Bool)
  | exitWithCode (code : Nat)
  | storeAddDocuments
  | similarityLoop
  | exampleSearch
  | interactiveLoop
deriving DecidableEq, Repr

/-- Trace of `main` in src/app.js (lines 31-148), parameterised by whether
`process.env.GITHUB_TOKEN` is set: it constructs `OpenAIEmbeddings`, then
builds the store with `MemoryVectorStore.fromTexts`, and only then checks
the token, calling `process.exit(1)` when it is missing; otherwise it adds
the documents, prints pairwise similarities, runs an example search and
enters the interactive prompt loop. -/
def appJsMainTrace (tokenPresent : Bool) : List MainEvent :=
  [MainEvent.embeddingsInit, MainEvent.storeConstruct,
   MainEvent.credentialCheck tokenPresent] ++
    (if tokenPresent then
      [MainEvent.storeAddDocuments, MainEvent.similarityLoop,
       MainEvent.exampleSearch, MainEvent.interactiveLoop]
    else
      [MainEvent.exitWithCode 1])

/-- Trace of `main` in src/unnamed/part_000 (lines 30-133): it checks
`process.env.GITHUB_TOKEN` first, calling `process.exit(1)` when it is
missing, and only afterwards constructs `OpenAIEmbeddings`, builds the store
with `MemoryVectorStore.fromTexts`, adds the documents, embeds and compares
the sentences, and runs the example searches. -/
def part000MainTrace (tokenPresent : Bool) : List MainEvent :=
  [MainEvent.credentialCheck tokenPresent] ++
    (if tokenPresent then
      [MainEvent.embeddingsInit, MainEvent.storeConstruct,
       MainEvent.storeAddDocuments, MainEvent.similarityLoop,
       MainEvent.exampleSearch]
    else
      [MainEvent.exitWithCode 1])

/-- Operations that touch the vector store. -/
def MainEvent.isStoreOperation : MainEvent → Bool
  | MainEvent.storeConstruct => true
  | MainEvent.storeAddDocuments => true
  | MainEvent.exampleSearch => true
  | MainEvent.interactiveLoop => true
  | _ => false

/-- The WhiteSpace and LineTerminator code points removed by JavaScript's
`String.prototype.trim`. -/
def jsWhitespaceChars : List Char :=
  ['\u0009', '\u000a', '\u000b', '\u000c', '\u000d', '\u0020', '\u00a0',
   '\u1680', '\u2000', '\u2001', '\u2002', '\u2003', '\u2004', '\u2005',
   '\u2006', '\u2007', '\u2008', '\u2009', '\u200a', '\u2028', '\u2029',
   '\u202f', '\u205f', '\u3000', '\ufeff']

/-- Whether `String.prototype.trim` removes the character `c`. -/
def jsIsWhitespace (c : Char) : Bool :=
  jsWhitespaceChars.contains c

/-- Model of JavaScript `input.trim()` (src/app.js line 130): remove
whitespace from the front of the string, then from the back.
`List.rdropWhile p l` is `(l.reverse.dropWhile p).reverse`. -/
def jsTrim (s : String) : String :=
  String.mk (List.rdropWhile jsIsWhitespace (List.dropWhile jsIsWhitespace s.data))

/-- ASCII model of JavaScript `toLowerCase` on one character.  The only
comparisons made with the result are against the ASCII strings `"quit"` and
`"exit"`, and a non-ASCII letter never lowercases to an ASCII one, so
leaving non-ASCII characters unchanged classifies every input identically
to the JavaScript original. -/
def jsToLowerChar (c : Char) : Char :=
  if 'A' ≤ c ∧ c ≤ 'Z' then Char.ofNat (c.toNat + 32) else c

/-- Model of JavaScript `query.toLowerCase()` (src/app.js line 132). -/
def jsToLower (s : String) : String :=
  String.mk (s.data.map jsToLowerChar)

/-- Reaction of one round of the `promptUser` read loop to an input line:
exit the process, re-prompt without querying the store, or run a search
against the store and then re-prompt. -/
inductive PromptAction where
  | exitProgram (code : Nat)
  | reprompt
  | searchThenReprompt (query : String)
deriving DecidableEq, Repr

/-- Model of the body of `promptUser` in src/app.js (lines 128-145): trim
the input; on a case-insensitive `quit` or `exit` call `process.exit(0)`;
on an empty remainder print a reminder and re-prompt; otherwise run
`searchSentences` on the query and re-prompt. -/
def promptStep (input : String) : PromptAction :=
  let query := jsTrim input
  if jsToLower query = "quit" ∨ jsToLower query = "exit" then
    PromptAction.exitProgram 0
  else if query = "" then
    PromptAction.reprompt
  else
    PromptAction.searchThenReprompt query

/-! ### Basic lemmas about the similarity metric -/

theorem dotProduct_comm (a b : List ℚ) : dotProduct a b = dotProduct b a := by
  induction a generalizing b with
  | nil => cases b <;> rfl
  | cons x xs ih =>
    cases b with
    | nil => rfl
    | cons y ys => simp only [dotProduct, ih ys, mul_comm x y]

theorem normSq_nonneg (v : List ℚ) : 0 ≤ normSq v := by
  induction v with
  | nil => exact le_refl 0
  | cons x xs ih => simp only [normSq]; nlinarith [mul_self_nonneg x]

theorem normSq_eq_zero_iff (v : List ℚ) : normSq v = 0 ↔ isZeroVector v := by
  induction v with
  | nil => simp [normSq, isZeroVector]
  | cons x xs ih =>
    simp only [normSq, isZeroVector, List.mem_cons]
    constructor
    · intro h
      have hx : x * x = 0 := by nlinarith [normSq_nonneg xs, mul_self_nonneg x]
      have hx0 : x = 0 := by
        have := mul_self_eq_zero.mp hx
        exact this
      have hxs : normSq xs = 0 := by nlinarith [mul_self_nonneg x]
      intro y hy
      rcases hy with hy | hy
      · exact hy ▸ hx0
      · exact (ih.mp hxs) y hy
    · intro h
      have hx0 : x = 0 := h x (Or.inl rfl)
      have hxs : normSq xs = 0 := ih.mpr (fun y hy => h y (Or.inr hy))
      rw [hx0, hxs]; ring

theorem dotProduct_eq_zero_left (a : List ℚ) :
    ∀ b : List ℚ, normSq a = 0 → dotProduct a b = 0 := by
  induction a with
  | nil => intro b _; cases b <;> rfl
  | cons x xs ih =>
    intro b h
    cases b with
    | nil => rfl
    | cons y ys =>
      simp only [normSq] at h
      have hx : x = 0 := by
        have h2 : x * x = 0 := by nlinarith [mul_self_nonneg x, normSq_nonneg xs]
        exact mul_self_eq_zero.mp h2
      have hxs : normSq xs = 0 := by nlinarith [mul_self_nonneg x, normSq_nonneg xs]
      simp only [dotProduct, hx, zero_mul, zero_add]
      exact ih ys hxs

theorem dotProduct_sq_le_normSq_mul (a : List ℚ) :
    ∀ b : List ℚ, (dotProduct a b) ^ 2 ≤ normSq a * normSq b := by
  induction a with
  | nil =>
    intro b
    cases b <;> simp [dotProduct, normSq]
  | cons x xs ih =>
    intro b
    cases b with
    | nil => simp [dotProduct, normSq]
    | cons y ys =>
      have h := ih ys
      have hna := normSq_nonneg xs
      have hnb := normSq_nonneg ys
      simp only [dotProduct, normSq]
      rcases eq_or_lt_of_le hnb with hb0 | hbpos
      · have hd0 : dotProduct xs ys = 0 := by
          have h2 : (dotProduct xs ys) ^ 2 ≤ 0 := by nlinarith
          nlinarith [sq_nonneg (dotProduct xs ys)]
        rw [hd0, ← hb0]
        nlinarith [mul_nonneg hna (mul_self_nonneg y)]
      · nlinarith [sq_nonneg (x * normSq ys - y * dotProduct xs ys),
          mul_nonneg (sq_nonneg y) (by nlinarith : (0:ℚ) ≤ normSq xs * normSq ys - (dotProduct xs ys) ^ 2),
          mul_nonneg hnb (by nlinarith : (0:ℚ) ≤ normSq xs * normSq ys - (dotProduct xs ys) ^ 2)]

/-! ### Claim theorems -/

/-- C1, counterexample: on the zero vector (norm exactly zero) the code
divides `0 / (Math.sqrt 0 * Math.sqrt 0) = 0 / 0`, which is NaN, not the
real value `0.0` the claim promises. -/
theorem c1_counterexample :
    cosineSimilarity [(0 : ℚ)] [(0 : ℚ)] = Except.ok CosResult.nan ∧
    ¬ CosResult.isRealValue CosResult.nan 0 := by
  constructor
  · norm_num [cosineSimilarity, dotProduct, normSq]
  · simp [CosResult.isRealValue]

/-- C1, amended: for every input pair of equal length in which either vector
has Euclidean norm exactly zero, `cosineSimilarity` returns NaN (never the
real value `0.0`): the dot product is then also zero, so the code computes
the IEEE quotient `0 / 0`. -/
theorem c1_zero_norm_gives_nan (a b : List ℚ) (hlen : a.length = b.length)
    (h : normSq a = 0 ∨ normSq b = 0) :
    cosineSimilarity a b = Except.ok CosResult.nan := by
  have hg : ¬ a.length ≠ b.length := by simp [hlen]
  have hd : dotProduct a b = 0 := by
    rcases h with h | h
    · exact dotProduct_eq_zero_left a b h
    · rw [dotProduct_comm]; exact dotProduct_eq_zero_left b a h
  have hz : normSq a * normSq b = 0 := by
    rcases h with h | h
    · rw [h, zero_mul]
    · rw [h, mul_zero]
  simp [cosineSimilarity, if_neg hg, hd, hz]

/-- C1, witness for the amended claim at the concrete input `[0]`, `[1]`. -/
theorem c1_zero_norm_gives_nan_witness :
    cosineSimilarity [(0 : ℚ)] [(1 : ℚ)] = Except.ok CosResult.nan :=
  c1_zero_norm_gives_nan [0] [1] rfl (Or.inl (by simp [normSq]))

/-- C2: `cosineSimilarity` fails with the dimension-mismatch error exactly
when the two vectors have different lengths, and returns normally exactly
when the lengths are equal. -/
theorem c2_dimension_mismatch (a b : List ℚ) :
    (cosineSimilarity a b = Except.error SimError.dimensionMismatch ↔
      a.length ≠ b.length) ∧
    ((∃ r, cosineSimilarity a b = Except.ok r) ↔ a.length = b.length) := by
  by_cases h : a.length = b.length
  · constructor
    · simp only [cosineSimilarity, h, ne_eq, not_true_eq_false, if_false]
      constructor
      · intro hc
        split_ifs at hc
      · intro hc
        exact hc.elim
    · simp only [cosineSimilarity, h, ne_eq, not_true_eq_false, if_false]
      constructor
      · intro _; trivial
      · intro _
        split_ifs <;> exact ⟨_, rfl⟩
  · have h' : a.length ≠ b.length := h
    simp [cosineSimilarity, h']

/-- C4: for every pair of vectors of equal length, `cosineSimilarity` is
symmetric in its two arguments. -/
theorem c4_symmetric (a b : List ℚ) (h : a.length = b.length) :
    cosineSimilarity a b = cosineSimilarity b a := by
  have h1 : ¬ a.length ≠ b.length := by simp [h]
  have h2 : ¬ b.length ≠ a.length := by simp [h]
  simp only [cosineSimilarity, if_neg h1, if_neg h2, dotProduct_comm b a,
    mul_comm (normSq b) (normSq a)]

/-- C4, witness at the concrete pair `[1, 2]`, `[3, 4]`. -/
theorem c4_symmetric_witness :
    cosineSimilarity [(1 : ℚ), 2] [(3 : ℚ), 4] =
      cosineSimilarity [(3 : ℚ), 4] [(1 : ℚ), 2] :=
  c4_symmetric [1, 2] [3, 4] rfl

/-- C5: for every pair of non-zero vectors of equal length,
`cosineSimilarity` returns a finite value `num / Real.sqrt den2` and that
value lies in the closed interval `[-1, 1]` (Cauchy-Schwarz). -/
theorem c5_bounded (a b : List ℚ) (hlen : a.length = b.length)
    (ha : ¬ isZeroVector a) (hb : ¬ isZeroVector b) :
    ∃ num den2 : ℚ,
      cosineSimilarity a b = Except.ok (CosResult.val num den2) ∧
      CosResult.isRealValue (CosResult.val num den2)
        ((num : ℝ) / Real.sqrt (den2 : ℝ)) ∧
      -1 ≤ (num : ℝ) / Real.sqrt (den2 : ℝ) ∧
      (num : ℝ) / Real.sqrt (den2 : ℝ) ≤ 1 := by
  have hna : 0 < normSq a := by
    rcases lt_or_eq_of_le (normSq_nonneg a) with h | h
    · exact h
    · exact absurd ((normSq_eq_zero_iff a).mp h.symm) ha
  have hnb : 0 < normSq b := by
    rcases lt_or_eq_of_le (normSq_nonneg b) with h | h
    · exact h
    · exact absurd ((normSq_eq_zero_iff b).mp h.symm) hb
  have hden : 0 < normSq a * normSq b := mul_pos hna hnb
  have hg : ¬ a.length ≠ b.length := by simp [hlen]
  refine ⟨dotProduct a b, normSq a * normSq b, ?_, rfl, ?_⟩
  · simp [cosineSimilarity, if_neg hg, hden.ne']
  · have hCS : (dotProduct a b) ^ 2 ≤ normSq a * normSq b :=
      dotProduct_sq_le_normSq_mul a b
    have hdenR : (0 : ℝ) < ((normSq a * normSq b : ℚ) : ℝ) := by
      exact_mod_cast hden
    have hs : 0 < Real.sqrt ((normSq a * normSq b : ℚ) : ℝ) :=
      Real.sqrt_pos.mpr hdenR
    have hD2 : ((dotProduct a b : ℚ) : ℝ) ^ 2 ≤ ((normSq a * normSq b : ℚ) : ℝ) := by
      exact_mod_cast hCS
    have habs : |((dotProduct a b : ℚ) : ℝ)| ≤
        Real.sqrt ((normSq a * normSq b : ℚ) : ℝ) := by
      have h1 := Real.sqrt_le_sqrt hD2
      rwa [Real.sqrt_sq_eq_abs] at h1
    rcases abs_le.mp habs with ⟨hlow, hhigh⟩
    constructor
    · rw [le_div_iff₀ hs]
      linarith
    · rw [div_le_one hs]
      exact hhigh

/-- C5, witness at the concrete non-zero pair `[1, 0]`, `[0, 1]`. -/
theorem c5_bounded_witness :
    ∃ num den2 : ℚ,
      cosineSimilarity [(1 : ℚ), 0] [(0 : ℚ), 1] =
        Except.ok (CosResult.val num den2) ∧
      CosResult.isRealValue (CosResult.val num den2)
        ((num : ℝ) / Real.sqrt (den2 : ℝ)) ∧
      -1 ≤ (num : ℝ) / Real.sqrt (den2 : ℝ) ∧
      (num : ℝ) / Real.sqrt (den2 : ℝ) ≤ 1 :=
  c5_bounded [1, 0] [0, 1] rfl (by decide) (by decide)

/-- C6: in the spec's end-to-end scenario, `cosineSimilarity (A, C)` and
`cosineSimilarity (B, C)` denote exactly the real value `0`, and
`cosineSimilarity (A, B)` denotes a real value within `0.001` of `0.994`. -/
theorem c6_scenario :
    cosineSimilarity vecA vecC = Except.ok (CosResult.val 0 1) ∧
    CosResult.isRealValue (CosResult.val 0 1) 0 ∧
    cosineSimilarity vecB vecC = Except.ok (CosResult.val 0 (41/50)) ∧
    CosResult.isRealValue (CosResult.val 0 (41/50)) 0 ∧
    cosineSimilarity vecA vecB = Except.ok (CosResult.val (9/10) (41/50)) ∧
    ∃ x : ℝ, CosResult.isRealValue (CosResult.val (9/10) (41/50)) x ∧
      |x - 497/500| < 1/1000 := by
  refine ⟨?_, ?_, ?_, ?_, ?_, ?_⟩
  · norm_num [cosineSimilarity, vecA, vecC, dotProduct, normSq]
  · simp [CosResult.isRealValue]
  · norm_num [cosineSimilarity, vecB, vecC, dotProduct, normSq]
  · simp [CosResult.isRealValue]
  · norm_num [cosineSimilarity, vecA, vecB, dotProduct, normSq]
  · refine ⟨_, rfl, ?_⟩
    have hc1 : ((9/10 : ℚ) : ℝ) = 9/10 := by norm_num
    have hc2 : ((41/50 : ℚ) : ℝ) = 41/50 := by norm_num
    rw [hc1, hc2]
    have h1 : (0.9055 : ℝ) < Real.sqrt (41/50) :=
      (Real.lt_sqrt (by norm_num)).mpr (by norm_num)
    have h2 : Real.sqrt (41/50) < (0.9056 : ℝ) :=
      (Real.sqrt_lt' (by norm_num)).mpr (by norm_num)
    have hs0 : (0 : ℝ) < Real.sqrt (41/50) := lt_trans (by norm_num) h1
    have hmul : (9/10 : ℝ) / Real.sqrt (41/50) * Real.sqrt (41/50) = 9/10 :=
      div_mul_cancel₀ _ (ne_of_gt hs0)
    rw [abs_lt]
    constructor
    · nlinarith [hmul, h2, hs0]
    · nlinarith [hmul, h1, hs0]

/-- C3: with `GITHUB_TOKEN` absent, `main` in src/app.js constructs the
`MemoryVectorStore` (a store operation) before it reaches the credential
check and `process.exit(1)`, while `main` in src/unnamed/part_000 checks the
credential first and exits with code 1 before any store operation. -/
theorem c3_appjs_constructs_store_before_check :
    appJsMainTrace false =
      [MainEvent.embeddingsInit, MainEvent.storeConstruct,
       MainEvent.credentialCheck false, MainEvent.exitWithCode 1] ∧
    MainEvent.isStoreOperation MainEvent.storeConstruct = true ∧
    part000MainTrace false =
      [MainEvent.credentialCheck false, MainEvent.exitWithCode 1] ∧
    (part000MainTrace false).all
      (fun e => ! MainEvent.isStoreOperation e) = true := by
  exact ⟨rfl, rfl, rfl, rfl⟩

/-- C7: one round of the `promptUser` loop calls `process.exit` exactly on
the lines whose trimmed content is `quit` or `exit` in any letter case, and
then always with exit code 0; no other line terminates the process. -/
theorem c7_quit_exit_termination (line : String) (code : Nat) :
    promptStep line = PromptAction.exitProgram code ↔
      code = 0 ∧ (jsToLower (jsTrim line) = "quit" ∨
        jsToLower (jsTrim line) = "exit") := by
  unfold promptStep
  dsimp only
  split_ifs with h1 h2
  · constructor
    · intro he
      injection he with h0
      exact ⟨h0.symm, h1⟩
    · rintro ⟨rfl, _⟩
      rfl
  · simp [h1]
  · simp [h1]

/-- C8: a line that is empty after trimming makes the `promptUser` loop
re-prompt without searching the store. -/
theorem c8_blank_reprompt (line : String) (h : jsTrim line = "") :
    promptStep line = PromptAction.reprompt := by
  unfold promptStep
  rw [h]
  decide

/-- C8, witness at the concrete all-blank line. -/
theorem c8_blank_reprompt_witness : promptStep "   " = PromptAction.reprompt :=
  c8_blank_reprompt "   " (by decide)

/-- The loop of `cosineSimilarity` never writes to either argument array:
the array state after any number of iterations is the initial one. -/
theorem simLoopState_arrays_unchanged (steps : Nat) :
    ∀ (i : Nat) (arrays : Array ℚ × Array ℚ) (acc : ℚ × ℚ × ℚ),
      (simLoopState steps i arrays acc).1 = arrays := by
  induction steps with
  | zero => intro i arrays acc; rfl
  | succ n ih =>
    intro i arrays acc
    obtain ⟨a, b⟩ := arrays
    obtain ⟨d, na, nb⟩ := acc
    simp only [simLoopState]
    exact ih _ _ _

/-- C9: `cosineSimilarity` never mutates its input vectors: after the call
both argument arrays hold exactly the elements they held before it. -/
theorem c9_no_mutation (a b : Array ℚ) :
    (cosineSimilarityArr a b).2 = (a, b) := by
  unfold cosineSimilarityArr
  split_ifs with h
  · rfl
  · exact simLoopState_arrays_unchanged _ _ _ _

/-- A left-trimmed list stays left-trimmed after right-trimming: the first
element survives right-trimming (or the list becomes empty). -/
theorem dropWhile_rdropWhile_fixed {p : Char → Bool} {l : List Char}
    (h : List.dropWhile p l = l) :
    List.dropWhile p (List.rdropWhile p l) = List.rdropWhile p l := by
  cases hrd : List.rdropWhile p l with
  | nil => rfl
  | cons c cs =>
    have hpre : List.Sublist (c :: cs) l := by
      have hp := List.rdropWhile_prefix p l
      rw [hrd] at hp
      exact hp.sublist
    have hpre2 : ∃ t, c :: (cs ++ t) = l := by
      have hp := List.rdropWhile_prefix p l
      rw [hrd] at hp
      obtain ⟨t, ht⟩ := hp
      exact ⟨t, by simpa using ht⟩
    obtain ⟨t, ht⟩ := hpre2
    have hc : ¬ p c = true := by
      intro hpc
      rw [← ht, List.dropWhile_cons, if_pos hpc] at h
      have hlen :=
        (List.dropWhile_sublist p :
          List.Sublist (List.dropWhile p (cs ++ t)) (cs ++ t)).length_le
      rw [h] at hlen
      simp at hlen
    rw [List.dropWhile_cons, if_neg hc]

/-- JavaScript `trim` is idempotent. -/
theorem jsTrim_idempotent (s : String) : jsTrim (jsTrim s) = jsTrim s := by
  unfold jsTrim
  have hdata :
      (String.mk (List.rdropWhile jsIsWhitespace
        (List.dropWhile jsIsWhitespace s.data))).data =
      List.rdropWhile jsIsWhitespace (List.dropWhile jsIsWhitespace s.data) := rfl
  rw [hdata]
  have h1 := List.dropWhile_idempotent jsIsWhitespace s.data
  have h2 := dropWhile_rdropWhile_fixed h1
  rw [h2, List.rdropWhile_idempotent]

/-- C10: `promptUser` classifies every line by its trimmed content, so that
a padded `"  QUIT  "` terminates the process and an all-whitespace line is
treated as blank input. -/
theorem c10_trim_before_classify :
    (∀ line : String, promptStep line = promptStep (jsTrim line)) ∧
    promptStep "  QUIT  " = PromptAction.exitProgram 0 ∧
    promptStep " \t " = PromptAction.reprompt := by
  refine ⟨?_, by decide, by decide⟩
  intro line
  unfold promptStep
  rw [jsTrim_idempotent]
